import Mathlib

/-! Shallow embedding of the `OTAClient` firmware-update client
(src/services/platform-lib/internal/ota/arduino_client/OTAClient.h and
OTAClient.cpp).

External collaborators — the HTTP transport, ArduinoJson parsing, the mbedtls
SHA-256 and public-key primitives, base64 decoding and the `Update` flash
installer — are modelled as an `Env` of oracle functions and response values.
The client object's mutable fields (`_lastError`, `_lastErrorMessage`,
`_verifySignature`) together with the observable interaction trace (status
reports posted to the control plane, installer protocol steps executed,
verifier invocations, HTTP requests issued) form an explicit `ClientState`
threaded through every member function. -/

namespace OTA

/-- Error codes, from OTAClient.h lines 19–25. -/
def OTA_ERROR_NONE : Nat := 0

def OTA_ERROR_NO_UPDATE : Nat := 1

def OTA_ERROR_NETWORK : Nat := 2

def OTA_ERROR_DOWNLOAD : Nat := 3

def OTA_ERROR_VERIFICATION : Nat := 4

def OTA_ERROR_INSTALLATION : Nat := 5

def OTA_ERROR_INVALID_RESPONSE : Nat := 6

/-- Wire status strings, from OTAClient.h lines 12–16. -/
def OTA_STATUS_PENDING : String := "pending"

def OTA_STATUS_DOWNLOADING : String := "downloading"

def OTA_STATUS_INSTALLING : String := "installing"

def OTA_STATUS_COMPLETED : String := "completed"

def OTA_STATUS_FAILED : String := "failed"

/-- HTTPClient status-code constants used by the source. -/
def HTTP_CODE_OK : Int := 200

/-- HTTPClient 404 constant. -/
def HTTP_CODE_NOT_FOUND : Int := 404

/-- `struct FirmwareUpdate` from OTAClient.h. `binarySize` is an `int64_t`;
strings default-construct empty. -/
structure FirmwareUpdate where
  releaseID : String := ""
  version : String := ""
  binaryURL : String := ""
  binaryHash : String := ""
  binarySize : Int := 0
  signature : String := ""
  releaseNotes : String := ""
deriving Repr, DecidableEq

/-- The C++ conversion of the `int64_t` descriptor size to the `size_t`
parameter of `downloadFirmware` (wraps modulo 2^64). -/
def toSizeT (i : Int) : Nat := (i % (2 : Int) ^ 64).toNat

/-- Environment of external collaborators: mbedtls crypto, base64 codec,
the HTTP responses the transport delivers, and the `Update` installer.
`sha256` stands for `mbedtls_sha256_*` producing the 32-byte digest;
`fwStream` is the byte sequence the chunked read loop of `downloadFirmware`
ends up having received from the connection; `reportAck` says whether the
n-th status POST of a run is answered with HTTP 200. -/
structure Env where
  sha256 : List Nat → List Nat
  base64Dec : String → List Nat
  pkParseOk : Bool
  pkVerify : List Nat → List Nat → Bool
  checkHttpCode : Int
  checkParse : Option FirmwareUpdate
  jsonErrStr : String
  fwHttpCode : Int
  fwContentLength : Int
  mallocOk : Bool
  fwStream : List Nat
  reportAck : Nat → Bool
  updateBeginOk : Nat → Bool
  updateWritten : Nat → Nat
  updateEndOk : Bool
  updateIsFinished : Bool
  updateErrString : String

/-- Client-visible mutable state of an `OTAClient` object plus the observable
interaction trace. The constructor sets `_verifySignature = true` and
`_lastError = OTA_ERROR_NONE`; `reports` records each `reportStatus` call as
(status, progress, optional error message); `installerSteps` records which
steps of the installer begin/write/end/isFinished protocol were executed;
`checkRequests` and `fwRequests` count HTTP GETs issued; the two
`...VerifyCalls` counters record invocations of the hash and signature
verifiers. -/
structure ClientState where
  verifySignatureEnabled : Bool := true
  lastError : Nat := OTA_ERROR_NONE
  lastErrorMessage : String := ""
  reports : List (String × Int × Option String) := []
  postCount : Nat := 0
  checkRequests : Nat := 0
  fwRequests : Nat := 0
  hashVerifyCalls : Nat := 0
  sigVerifyCalls : Nat := 0
  installerSteps : List String := []
deriving Repr, DecidableEq

/-- A freshly constructed client (constructor, OTAClient.cpp lines 5–9). -/
def initState : ClientState := {}

/-- ASCII lower-casing of one character, as Arduino `equalsIgnoreCase`
performs per character. -/
def asciiLower (c : Char) : Char :=
  if 'A' ≤ c ∧ c ≤ 'Z' then Char.ofNat (c.toNat + 32) else c

/-- Arduino `String::equalsIgnoreCase`: ASCII case-insensitive equality. -/
def equalsIgnoreCase (a b : String) : Bool :=
  a.data.map asciiLower == b.data.map asciiLower

/-- Two lowercase hex digits of one byte, as `sprintf("%02x", hash[i])`
renders each `uint8_t`. -/
def byteToHex (b : Nat) : List Char :=
  [Nat.digitChar (b / 16 % 16), Nat.digitChar (b % 16)]

/-- The 64-character lowercase hex string `hashStr` built from the digest
bytes (each stored in a `uint8_t`, hence reduced mod 256). -/
def bytesToHexLower (bs : List Nat) : String :=
  ⟨(bs.map (fun b => b % 256)).flatMap byteToHex⟩

/-- `OTAClient::setError` (OTAClient.cpp lines 339–342). -/
def setError (errorCode : Nat) (errorMessage : String) (s : ClientState) :
    ClientState :=
  { s with lastError := errorCode, lastErrorMessage := errorMessage }

/-- `OTAClient::getLastError` (OTAClient.cpp lines 163–165). -/
def getLastError (s : ClientState) : Nat := s.lastError

/-- `OTAClient::getLastErrorMessage` (OTAClient.cpp lines 167–169). -/
def getLastErrorMessage (s : ClientState) : String := s.lastErrorMessage

/-- `OTAClient::verifyHash` (OTAClient.cpp lines 268–280): compute the SHA-256
digest, render it as lowercase hex, and compare case-insensitively against the
expected hash. -/
def verifyHash (env : Env) (data : List Nat) (expectedHash : String) : Bool :=
  equalsIgnoreCase expectedHash (bytesToHexLower (env.sha256 data))

/-- `OTAClient::verifySignature` (OTAClient.cpp lines 282–311): decode the
base64 signature (zero decoded length fails), parse the public key, and verify
the signature against the SHA-256 digest with `mbedtls_pk_verify`. -/
def verifySignature (env : Env) (data : List Nat) (signature : String) :
    Bool :=
  let sigBytes := env.base64Dec signature
  if sigBytes.length = 0 then false
  else if ¬ env.pkParseOk then false
  else env.pkVerify (env.sha256 data) sigBytes

/-- Stateful wrapper recording that the hash verifier was invoked. -/
def runVerifyHash (env : Env) (data : List Nat) (expectedHash : String)
    (s : ClientState) : Bool × ClientState :=
  (verifyHash env data expectedHash,
   { s with hashVerifyCalls := s.hashVerifyCalls + 1 })

/-- Stateful wrapper recording that the signature verifier was invoked. -/
def runVerifySignature (env : Env) (data : List Nat) (signature : String)
    (s : ClientState) : Bool × ClientState :=
  (verifySignature env data signature,
   { s with sigVerifyCalls := s.sigVerifyCalls + 1 })

/-- `OTAClient::reportStatus` (OTAClient.cpp lines 179–202): POST the status
JSON and return whether the server answered HTTP 200. The report is appended
to the trace; the acknowledgment comes from the environment. -/
def reportStatus (env : Env) (releaseID : String) (status : String)
    (progress : Int) (errorMessage : Option String) (s : ClientState) :
    Bool × ClientState :=
  (env.reportAck s.postCount,
   { s with reports := s.reports ++ [(status, progress, errorMessage)],
            postCount := s.postCount + 1 })

/-- `OTAClient::downloadFirmware` (OTAClient.cpp lines 204–266). The chunked
read loop is abstracted to the byte sequence `env.fwStream` the connection
delivered; `totalRead` is its length. A non-200 response, a non-positive
content length, or a failed allocation return 0 with the corresponding
`OTA_ERROR_DOWNLOAD` message before any read; after the loop, a total that
differs from `expectedSize` frees the buffer (modelled by returning `none`)
and reports "Downloaded size mismatch". -/
def downloadFirmware (env : Env) (url : String) (expectedSize : Nat)
    (s : ClientState) : (Nat × Option (List Nat)) × ClientState :=
  let s := { s with fwRequests := s.fwRequests + 1 }
  if env.fwHttpCode ≠ HTTP_CODE_OK then
    ((0, none),
     setError OTA_ERROR_DOWNLOAD
       ("Download failed: HTTP " ++ toString env.fwHttpCode) s)
  else if env.fwContentLength ≤ 0 then
    ((0, none), setError OTA_ERROR_DOWNLOAD "Invalid content length" s)
  else if ¬ env.mallocOk then
    ((0, none), setError OTA_ERROR_DOWNLOAD "Memory allocation failed" s)
  else
    let data := env.fwStream
    let totalRead := data.length
    if totalRead ≠ expectedSize then
      ((0, none), setError OTA_ERROR_DOWNLOAD "Downloaded size mismatch" s)
    else
      ((totalRead, some data), s)

/-- `OTAClient::installFirmware` (OTAClient.cpp lines 313–337): the installer
begin/write/end/isFinished protocol. Each executed step is logged; a failing
step aborts the remainder with `OTA_ERROR_INSTALLATION` carrying the
installer's `errorString` (the final readiness check uses the fixed message
"Update not finished"). -/
def installFirmware (env : Env) (data : List Nat) (size : Nat)
    (s : ClientState) : Bool × ClientState :=
  let s := { s with installerSteps := s.installerSteps ++ ["begin"] }
  if ¬ env.updateBeginOk size then
    (false,
     setError OTA_ERROR_INSTALLATION
       ("Update begin failed: " ++ env.updateErrString) s)
  else
    let s := { s with installerSteps := s.installerSteps ++ ["write"] }
    if env.updateWritten size ≠ size then
      (false,
       setError OTA_ERROR_INSTALLATION
         ("Update write failed: " ++ env.updateErrString) s)
    else
      let s := { s with installerSteps := s.installerSteps ++ ["end"] }
      if ¬ env.updateEndOk then
        (false,
         setError OTA_ERROR_INSTALLATION
           ("Update end failed: " ++ env.updateErrString) s)
      else
        let s := { s with installerSteps := s.installerSteps ++ ["isFinished"] }
        if ¬ env.updateIsFinished then
          (false, setError OTA_ERROR_INSTALLATION "Update not finished" s)
        else
          (true, s)

/-- `OTAClient::checkForUpdate` (OTAClient.cpp lines 27–81). `updatePtrValid`
models whether the caller passed a non-null `FirmwareUpdate*`; the returned
`FirmwareUpdate` is the structure as filled (the default structure when
nothing was written through the pointer). Parsing of the 200-response body by
ArduinoJson is the environment's `checkParse` (fields missing from the JSON
parse as empty strings / 0). -/
def checkForUpdate (env : Env) (updatePtrValid : Bool) (s : ClientState) :
    (Bool × FirmwareUpdate) × ClientState :=
  if ¬ updatePtrValid then
    ((false, {}),
     setError OTA_ERROR_INVALID_RESPONSE "Invalid update pointer" s)
  else
    let s := { s with checkRequests := s.checkRequests + 1 }
    if env.checkHttpCode ≠ HTTP_CODE_OK then
      if env.checkHttpCode = HTTP_CODE_NOT_FOUND then
        ((false, {}), setError OTA_ERROR_NO_UPDATE "No update available" s)
      else
        ((false, {}),
         setError OTA_ERROR_NETWORK
           ("HTTP error: " ++ toString env.checkHttpCode) s)
    else
      match env.checkParse with
      | none =>
        ((false, {}),
         setError OTA_ERROR_INVALID_RESPONSE
           ("JSON parse error: " ++ env.jsonErrStr) s)
      | some u =>
        if u.releaseID.length = 0 ∨ u.binaryURL.length = 0 ∨
            u.binaryHash.length = 0 then
          ((false, u),
           setError OTA_ERROR_INVALID_RESPONSE
             "Missing required fields in update response" s)
        else
          ((true, u), { s with lastError := OTA_ERROR_NONE })

/-- The install half of `OTAClient::performUpdate` (OTAClient.cpp lines
116–135): report INSTALLING at 50, run the installer, report FAILED at 50 on
installer failure, otherwise report COMPLETED at 100 and clear `_lastError`. -/
def performInstallPhase (env : Env) (update : FirmwareUpdate)
    (data : List Nat) (s : ClientState) : Bool × ClientState :=
  let s := (reportStatus env update.releaseID OTA_STATUS_INSTALLING 50 none
    s).2
  let inst := installFirmware env data data.length s
  if ¬ inst.1 then
    let s := inst.2
    let s := (reportStatus env update.releaseID OTA_STATUS_FAILED 50
      (some s.lastErrorMessage) s).2
    (false, s)
  else
    let s := (reportStatus env update.releaseID OTA_STATUS_COMPLETED 100 none
      inst.2).2
    (true, { s with lastError := OTA_ERROR_NONE })

/-- `OTAClient::performUpdate` (OTAClient.cpp lines 83–143): report
DOWNLOADING at 0, download, then verify the hash, then (only when
`_verifySignature` is set and the descriptor carries a non-empty signature)
verify the signature, then install. Each failure reports FAILED — progress 0
for download and verification failures, progress 50 for installer failures —
and returns false through the cleanup path. -/
def performUpdate (env : Env) (update : FirmwareUpdate) (s : ClientState) :
    Bool × ClientState :=
  let s := (reportStatus env update.releaseID OTA_STATUS_DOWNLOADING 0 none
    s).2
  let dl := downloadFirmware env update.binaryURL (toSizeT update.binarySize)
    s
  let downloadedSize := dl.1.1
  let firmwareData := dl.1.2
  let s := dl.2
  if downloadedSize = 0 ∨ firmwareData = none then
    let s := (reportStatus env update.releaseID OTA_STATUS_FAILED 0
      (some s.lastErrorMessage) s).2
    (false, s)
  else
    let data := firmwareData.getD []
    let vh := runVerifyHash env data update.binaryHash s
    if ¬ vh.1 then
      let s := setError OTA_ERROR_VERIFICATION "Hash verification failed" vh.2
      let s := (reportStatus env update.releaseID OTA_STATUS_FAILED 0
        (some "Hash verification failed") s).2
      (false, s)
    else
      if vh.2.verifySignatureEnabled ∧ update.signature.length > 0 then
        let vs := runVerifySignature env data update.signature vh.2
        if ¬ vs.1 then
          let s := setError OTA_ERROR_VERIFICATION
            "Signature verification failed" vs.2
          let s := (reportStatus env update.releaseID OTA_STATUS_FAILED 0
            (some "Signature verification failed") s).2
          (false, s)
        else
          performInstallPhase env update data vs.2
      else
        performInstallPhase env update data vh.2

/-- `OTAClient::checkAndUpdate` (OTAClient.cpp lines 145–153): check for an
update (the address of a local structure, hence a valid pointer) and perform
it on success. -/
def checkAndUpdate (env : Env) (s : ClientState) : Bool × ClientState :=
  let c := checkForUpdate env true s
  if ¬ c.1.1 then (false, c.2)
  else performUpdate env c.1.2 c.2

/-- Lowercase hex rendering of the all-zero 32-byte digest produced by
`baseEnv.sha256`. -/
def zeroHashHex : String := bytesToHexLower (List.replicate 32 0)

/-- A concrete environment for witnesses and counterexamples: the digest
oracle returns the all-zero 32-byte vector, base64 decoding yields one byte
per input character, the server answers 200 everywhere, the connection
delivers the 3-byte payload [1, 2, 3], every status POST is acknowledged, and
the installer protocol succeeds. -/
def baseEnv : Env where
  sha256 := fun _ => List.replicate 32 0
  base64Dec := fun str => List.replicate str.length 0
  pkParseOk := true
  pkVerify := fun _ _ => true
  checkHttpCode := 200
  checkParse := none
  jsonErrStr := "EmptyInput"
  fwHttpCode := 200
  fwContentLength := 3
  mallocOk := true
  fwStream := [1, 2, 3]
  reportAck := fun _ => true
  updateBeginOk := fun _ => true
  updateWritten := fun n => n
  updateEndOk := true
  updateIsFinished := true
  updateErrString := "flash error"

/-- A well-formed descriptor whose hash matches `baseEnv`'s digest of the
streamed payload and whose signature field is the empty string. -/
def goodUpdate : FirmwareUpdate :=
  { releaseID := "r1", version := "1.0", binaryURL := "https://x/fw.bin",
    binaryHash := zeroHashHex, binarySize := 3, signature := "",
    releaseNotes := "" }

/-- Like `goodUpdate` but with a hash that cannot match any digest rendered
by `bytesToHexLower`. -/
def badHashUpdate : FirmwareUpdate :=
  { goodUpdate with binaryHash := "ff" }

/-- An environment whose connection delivers only 2 of the 3 declared bytes. -/
def truncatedEnv : Env :=
  { baseEnv with fwStream := [1, 2] }

/-- `baseEnv` with the control-plane check answering the given HTTP code. -/
def envWithCheckCode (code : Int) : Env :=
  { baseEnv with checkHttpCode := code }

/-- `baseEnv` with a parsed descriptor whose `releaseID` is empty. -/
def envMissingField : Env :=
  { baseEnv with checkParse := some { goodUpdate with releaseID := "" } }

/-- `baseEnv` with a well-formed descriptor available from the checker. -/
def envGood : Env :=
  { baseEnv with checkParse := some goodUpdate }

/-- A client state left with a stale failure code by an earlier operation. -/
def staleErrorState : ClientState :=
  { initState with lastError := OTA_ERROR_DOWNLOAD,
                   lastErrorMessage := "Downloaded size mismatch" }

/-- Success of `downloadFirmware` forces the 200 response, a positive content
length, a successful allocation, and a received byte total equal to
`expectedSize`; the returned buffer is exactly the received stream and the
state is unchanged except for the request counter. -/
theorem downloadFirmware_success_elim (env : Env) (url : String)
    (expectedSize : Nat) (s : ClientState) (n : Nat) (data : List Nat)
    (h : (downloadFirmware env url expectedSize s).1 = (n, some data)) :
    env.fwHttpCode = HTTP_CODE_OK ∧ 0 < env.fwContentLength ∧
    env.mallocOk = true ∧ data = env.fwStream ∧ n = env.fwStream.length ∧
    env.fwStream.length = expectedSize ∧
    (downloadFirmware env url expectedSize s).2 =
      { s with fwRequests := s.fwRequests + 1 } := by
  simp only [downloadFirmware] at h ⊢
  split at h
  · simp at h
  · split at h
    · simp at h
    · split at h
      · simp at h
      · split at h
        · simp at h
        · rename_i hc1 hc2 hc3 hc4
          simp only [ne_eq, not_not] at hc1 hc3 hc4
          simp only [Prod.mk.injEq, Option.some.injEq] at h
          refine ⟨hc1, by omega, hc3, h.2.symm, h.1.symm, hc4, ?_⟩
          simp [hc1, hc2, hc3, hc4]

/-- C1: the claim states that an update whose descriptor carries no signature
must fail with `VerificationError` whenever signature verification is
required. The code instead guards the signature check with
`update.signature.length() > 0` (OTAClient.cpp line 108), so with
`_verifySignature` enabled, an empty signature and a matching hash,
`performUpdate` succeeds, never invokes the signature verifier, and leaves
`OTA_ERROR_NONE` as the last error — signature checking is silently
skipped. -/
theorem C1_empty_signature_silently_skipped :
    initState.verifySignatureEnabled = true ∧
    goodUpdate.signature = "" ∧
    (performUpdate baseEnv goodUpdate initState).1 = true ∧
    (performUpdate baseEnv goodUpdate initState).2.sigVerifyCalls = 0 ∧
    getLastError (performUpdate baseEnv goodUpdate initState).2 =
      OTA_ERROR_NONE := by decide

/-- C2: whenever the digest of the downloaded payload does not match the
expected hash (case-insensitively), `performUpdate` fails with
`OTA_ERROR_VERIFICATION` and message "Hash verification failed"; the hash
check ran exactly once, and neither the signature verifier nor any installer
step is ever invoked on that payload. -/
theorem C2_hash_mismatch_fails_before_signature (env : Env)
    (u : FirmwareUpdate) (s : ClientState)
    (hcode : env.fwHttpCode = HTTP_CODE_OK)
    (hlen : 0 < env.fwContentLength)
    (hmal : env.mallocOk = true)
    (hsize : env.fwStream.length = toSizeT u.binarySize)
    (hne : env.fwStream ≠ [])
    (hmism : verifyHash env env.fwStream u.binaryHash = false) :
    (performUpdate env u s).1 = false ∧
    getLastError (performUpdate env u s).2 = OTA_ERROR_VERIFICATION ∧
    getLastErrorMessage (performUpdate env u s).2 =
      "Hash verification failed" ∧
    (performUpdate env u s).2.hashVerifyCalls = s.hashVerifyCalls + 1 ∧
    (performUpdate env u s).2.sigVerifyCalls = s.sigVerifyCalls ∧
    (performUpdate env u s).2.installerSteps = s.installerSteps := by
  have hlen2 : ¬ (env.fwContentLength ≤ 0) := not_le.mpr hlen
  have hlen0 : env.fwStream.length ≠ 0 := by
    intro h0
    exact hne (List.length_eq_zero.mp h0)
  simp only [performUpdate, downloadFirmware, reportStatus, runVerifyHash,
    setError, getLastError, getLastErrorMessage]
  simp [hcode, hlen2, hmal, ← hsize, hlen0, hmism]

/-- C2 witness: a concrete payload whose digest renders as 64 zeros against
the expected hash "ff". -/
theorem C2_hash_mismatch_fails_before_signature_witness :
    (performUpdate baseEnv badHashUpdate initState).1 = false ∧
    getLastError (performUpdate baseEnv badHashUpdate initState).2 =
      OTA_ERROR_VERIFICATION ∧
    getLastErrorMessage (performUpdate baseEnv badHashUpdate initState).2 =
      "Hash verification failed" ∧
    (performUpdate baseEnv badHashUpdate initState).2.hashVerifyCalls =
      initState.hashVerifyCalls + 1 ∧
    (performUpdate baseEnv badHashUpdate initState).2.sigVerifyCalls =
      initState.sigVerifyCalls ∧
    (performUpdate baseEnv badHashUpdate initState).2.installerSteps =
      initState.installerSteps :=
  C2_hash_mismatch_fails_before_signature baseEnv badHashUpdate initState
    (by decide) (by decide) (by decide) (by decide) (by decide) (by decide)

/-- C3: when the received byte total differs from the descriptor's
`expectedSize`, `downloadFirmware` discards the buffer (returns no data) with
`OTA_ERROR_DOWNLOAD` and message "Downloaded size mismatch", and
`performUpdate` on such an environment fails without ever invoking the hash
verifier, the signature verifier, or any installer step. -/
theorem C3_size_mismatch_discards_buffer (env : Env) (u : FirmwareUpdate)
    (s : ClientState)
    (hcode : env.fwHttpCode = HTTP_CODE_OK)
    (hlen : 0 < env.fwContentLength)
    (hmal : env.mallocOk = true)
    (hsize : env.fwStream.length ≠ toSizeT u.binarySize) :
    (downloadFirmware env u.binaryURL (toSizeT u.binarySize) s).1 =
      (0, none) ∧
    getLastError (downloadFirmware env u.binaryURL (toSizeT u.binarySize)
      s).2 = OTA_ERROR_DOWNLOAD ∧
    getLastErrorMessage (downloadFirmware env u.binaryURL
      (toSizeT u.binarySize) s).2 = "Downloaded size mismatch" ∧
    (performUpdate env u s).1 = false ∧
    getLastError (performUpdate env u s).2 = OTA_ERROR_DOWNLOAD ∧
    (performUpdate env u s).2.hashVerifyCalls = s.hashVerifyCalls ∧
    (performUpdate env u s).2.sigVerifyCalls = s.sigVerifyCalls ∧
    (performUpdate env u s).2.installerSteps = s.installerSteps := by
  have hlen2 : ¬ (env.fwContentLength ≤ 0) := not_le.mpr hlen
  simp only [performUpdate, downloadFirmware, reportStatus, setError,
    getLastError, getLastErrorMessage]
  simp [hcode, hlen2, hmal, hsize]

/-- C3 witness: the declared size is 3 but the connection delivers 2 bytes. -/
theorem C3_size_mismatch_discards_buffer_witness :
    (downloadFirmware truncatedEnv goodUpdate.binaryURL
      (toSizeT goodUpdate.binarySize) initState).1 = (0, none) ∧
    getLastError (downloadFirmware truncatedEnv goodUpdate.binaryURL
      (toSizeT goodUpdate.binarySize) initState).2 = OTA_ERROR_DOWNLOAD ∧
    getLastErrorMessage (downloadFirmware truncatedEnv goodUpdate.binaryURL
      (toSizeT goodUpdate.binarySize) initState).2 =
      "Downloaded size mismatch" ∧
    (performUpdate truncatedEnv goodUpdate initState).1 = false ∧
    getLastError (performUpdate truncatedEnv goodUpdate initState).2 =
      OTA_ERROR_DOWNLOAD ∧
    (performUpdate truncatedEnv goodUpdate initState).2.hashVerifyCalls =
      initState.hashVerifyCalls ∧
    (performUpdate truncatedEnv goodUpdate initState).2.sigVerifyCalls =
      initState.sigVerifyCalls ∧
    (performUpdate truncatedEnv goodUpdate initState).2.installerSteps =
      initState.installerSteps :=
  C3_size_mismatch_discards_buffer truncatedEnv goodUpdate initState
    (by decide) (by decide) (by decide) (by decide)

/-- C4 counterexample: a run whose download completes with the exact expected
size (3 of 3 bytes) and whose hash verification then fails reports FAILED with
progress 0, not 50 — no FAILED report with progress 50 occurs on this run,
refuting the claimed progress-50 convention for verification failures. -/
theorem C4_verification_failure_progress_counterexample :
    (performUpdate baseEnv badHashUpdate initState).1 = false ∧
    (performUpdate baseEnv badHashUpdate initState).2.reports =
      [(OTA_STATUS_DOWNLOADING, 0, none),
       (OTA_STATUS_FAILED, 0, some "Hash verification failed")] ∧
    (OTA_STATUS_FAILED, (50 : Int),
      (some "Hash verification failed" : Option String)) ∉
      (performUpdate baseEnv badHashUpdate initState).2.reports := by decide

/-- C4 amended: when the download completes with the exact expected size but
hash or signature verification then fails, `performUpdate` reports FAILED with
progress 0 (the same progress value download-stage failures report);
installation failures, by contrast, report progress 50. -/
theorem C4_amended_verification_failure_progress0 (env : Env)
    (u : FirmwareUpdate) (s : ClientState)
    (hcode : env.fwHttpCode = HTTP_CODE_OK)
    (hlen : 0 < env.fwContentLength)
    (hmal : env.mallocOk = true)
    (hsize : env.fwStream.length = toSizeT u.binarySize)
    (hne : env.fwStream ≠ [])
    (hver : verifyHash env env.fwStream u.binaryHash = false ∨
      (verifyHash env env.fwStream u.binaryHash = true ∧
       s.verifySignatureEnabled = true ∧ 0 < u.signature.length ∧
       verifySignature env env.fwStream u.signature = false)) :
    (performUpdate env u s).1 = false ∧
    ((performUpdate env u s).2.reports =
        s.reports ++ [(OTA_STATUS_DOWNLOADING, 0, none),
          (OTA_STATUS_FAILED, 0, some "Hash verification failed")] ∨
     (performUpdate env u s).2.reports =
        s.reports ++ [(OTA_STATUS_DOWNLOADING, 0, none),
          (OTA_STATUS_FAILED, 0, some "Signature verification failed")]) := by
  have hlen2 : ¬ (env.fwContentLength ≤ 0) := not_le.mpr hlen
  have hlen0 : env.fwStream.length ≠ 0 := by
    intro h0
    exact hne (List.length_eq_zero.mp h0)
  rcases hver with hmism | ⟨hhash, hsigen, hsiglen, hsv⟩
  · simp only [performUpdate, downloadFirmware, reportStatus, runVerifyHash,
      setError]
    simp [hcode, hlen2, hmal, ← hsize, hlen0, hmism]
  · simp only [performUpdate, downloadFirmware, reportStatus, runVerifyHash,
      runVerifySignature, setError]
    simp [hcode, hlen2, hmal, ← hsize, hlen0, hhash, hsigen, hsiglen, hsv]

/-- C4 amended witness: the concrete hash-mismatch run after a complete
3-byte download. -/
theorem C4_amended_verification_failure_progress0_witness :
    (performUpdate baseEnv badHashUpdate initState).1 = false ∧
    ((performUpdate baseEnv badHashUpdate initState).2.reports =
        initState.reports ++ [(OTA_STATUS_DOWNLOADING, 0, none),
          (OTA_STATUS_FAILED, 0, some "Hash verification failed")] ∨
     (performUpdate baseEnv badHashUpdate initState).2.reports =
        initState.reports ++ [(OTA_STATUS_DOWNLOADING, 0, none),
          (OTA_STATUS_FAILED, 0, some "Signature verification failed")]) :=
  C4_amended_verification_failure_progress0 baseEnv badHashUpdate initState
    (by decide) (by decide) (by decide) (by decide) (by decide)
    (Or.inl (by decide))

/-- C5: `checkForUpdate` classifies outcomes three ways — 404 yields
`OTA_ERROR_NO_UPDATE`; any other non-200 code yields `OTA_ERROR_NETWORK`
carrying the status code; a 200 whose body fails to parse, or whose parsed
descriptor has an empty `releaseID`, `binaryURL` or `binaryHash`, yields
`OTA_ERROR_INVALID_RESPONSE` — and returns false in every such case. -/
theorem C5_check_outcome_classification (env : Env) (s : ClientState) :
    (env.checkHttpCode = HTTP_CODE_NOT_FOUND →
      (checkForUpdate env true s).1.1 = false ∧
      getLastError (checkForUpdate env true s).2 = OTA_ERROR_NO_UPDATE) ∧
    (env.checkHttpCode ≠ HTTP_CODE_OK →
      env.checkHttpCode ≠ HTTP_CODE_NOT_FOUND →
      (checkForUpdate env true s).1.1 = false ∧
      getLastError (checkForUpdate env true s).2 = OTA_ERROR_NETWORK ∧
      getLastErrorMessage (checkForUpdate env true s).2 =
        "HTTP error: " ++ toString env.checkHttpCode) ∧
    (env.checkHttpCode = HTTP_CODE_OK → env.checkParse = none →
      (checkForUpdate env true s).1.1 = false ∧
      getLastError (checkForUpdate env true s).2 =
        OTA_ERROR_INVALID_RESPONSE) ∧
    (∀ u, env.checkHttpCode = HTTP_CODE_OK → env.checkParse = some u →
      (u.releaseID.length = 0 ∨ u.binaryURL.length = 0 ∨
        u.binaryHash.length = 0) →
      (checkForUpdate env true s).1.1 = false ∧
      getLastError (checkForUpdate env true s).2 =
        OTA_ERROR_INVALID_RESPONSE) := by
  refine ⟨?_, ?_, ?_, ?_⟩
  · intro h404
    simp [checkForUpdate, setError, getLastError, h404, HTTP_CODE_NOT_FOUND,
      HTTP_CODE_OK]
  · intro hne hne404
    simp [checkForUpdate, setError, getLastError, getLastErrorMessage, hne,
      hne404]
  · intro h200 hparse
    simp [checkForUpdate, setError, getLastError, h200, hparse]
  · intro u h200 hparse hmiss
    simp [checkForUpdate, setError, getLastError, h200, hparse, hmiss]

/-- C5 witness: the four outcome classes at concrete responses — a 404, a
500, a 200 whose body fails to parse, and a 200 whose descriptor lacks
`releaseID`. -/
theorem C5_check_outcome_classification_witness :
    ((checkForUpdate (envWithCheckCode 404) true initState).1.1 = false ∧
     getLastError (checkForUpdate (envWithCheckCode 404) true initState).2 =
       OTA_ERROR_NO_UPDATE) ∧
    ((checkForUpdate (envWithCheckCode 500) true initState).1.1 = false ∧
     getLastError (checkForUpdate (envWithCheckCode 500) true initState).2 =
       OTA_ERROR_NETWORK ∧
     getLastErrorMessage (checkForUpdate (envWithCheckCode 500) true
       initState).2 = "HTTP error: 500") ∧
    ((checkForUpdate baseEnv true initState).1.1 = false ∧
     getLastError (checkForUpdate baseEnv true initState).2 =
       OTA_ERROR_INVALID_RESPONSE) ∧
    ((checkForUpdate envMissingField true initState).1.1 = false ∧
     getLastError (checkForUpdate envMissingField true initState).2 =
       OTA_ERROR_INVALID_RESPONSE) :=
  ⟨(C5_check_outcome_classification (envWithCheckCode 404) initState).1
      (by decide),
   (C5_check_outcome_classification (envWithCheckCode 500) initState).2.1
      (by decide) (by decide),
   (C5_check_outcome_classification baseEnv initState).2.2.1
      (by decide) (by decide),
   (C5_check_outcome_classification envMissingField initState).2.2.2
      { goodUpdate with releaseID := "" } (by decide) (by decide)
      (by decide)⟩

/-- C6: each failing installer step (begin-with-size, write-all-bytes,
finalize) aborts the remaining steps with `OTA_ERROR_INSTALLATION` carrying
the installer's diagnostic text, and a false readiness check after a
successful finalize is still `OTA_ERROR_INSTALLATION`, not success; the
step log records exactly the steps executed. -/
theorem C6_installer_step_failures (env : Env) (data : List Nat) (size : Nat)
    (s : ClientState) :
    (env.updateBeginOk size = false →
      (installFirmware env data size s).1 = false ∧
      getLastError (installFirmware env data size s).2 =
        OTA_ERROR_INSTALLATION ∧
      getLastErrorMessage (installFirmware env data size s).2 =
        "Update begin failed: " ++ env.updateErrString ∧
      (installFirmware env data size s).2.installerSteps =
        s.installerSteps ++ ["begin"]) ∧
    (env.updateBeginOk size = true → env.updateWritten size ≠ size →
      (installFirmware env data size s).1 = false ∧
      getLastError (installFirmware env data size s).2 =
        OTA_ERROR_INSTALLATION ∧
      getLastErrorMessage (installFirmware env data size s).2 =
        "Update write failed: " ++ env.updateErrString ∧
      (installFirmware env data size s).2.installerSteps =
        s.installerSteps ++ ["begin", "write"]) ∧
    (env.updateBeginOk size = true → env.updateWritten size = size →
      env.updateEndOk = false →
      (installFirmware env data size s).1 = false ∧
      getLastError (installFirmware env data size s).2 =
        OTA_ERROR_INSTALLATION ∧
      getLastErrorMessage (installFirmware env data size s).2 =
        "Update end failed: " ++ env.updateErrString ∧
      (installFirmware env data size s).2.installerSteps =
        s.installerSteps ++ ["begin", "write", "end"]) ∧
    (env.updateBeginOk size = true → env.updateWritten size = size →
      env.updateEndOk = true → env.updateIsFinished = false →
      (installFirmware env data size s).1 = false ∧
      getLastError (installFirmware env data size s).2 =
        OTA_ERROR_INSTALLATION ∧
      getLastErrorMessage (installFirmware env data size s).2 =
        "Update not finished" ∧
      (installFirmware env data size s).2.installerSteps =
        s.installerSteps ++ ["begin", "write", "end", "isFinished"]) := by
  refine ⟨?_, ?_, ?_, ?_⟩ <;> intros <;>
    simp_all [installFirmware, setError, getLastError, getLastErrorMessage]

/-- `baseEnv` with an installer whose begin step is refused. -/
def envBeginFail : Env := { baseEnv with updateBeginOk := fun _ => false }

/-- `baseEnv` with an installer that finalizes but reports the image not
ready to boot. -/
def envNotFinished : Env := { baseEnv with updateIsFinished := false }

/-- C6 witness: a refused begin step and a false readiness check after a
successful finalize, at concrete installer environments. -/
theorem C6_installer_step_failures_witness :
    ((installFirmware envBeginFail [1, 2, 3] 3 initState).1 = false ∧
     getLastError (installFirmware envBeginFail [1, 2, 3] 3 initState).2 =
       OTA_ERROR_INSTALLATION ∧
     getLastErrorMessage (installFirmware envBeginFail [1, 2, 3] 3
       initState).2 = "Update begin failed: flash error" ∧
     (installFirmware envBeginFail [1, 2, 3] 3 initState).2.installerSteps =
       initState.installerSteps ++ ["begin"]) ∧
    ((installFirmware envNotFinished [1, 2, 3] 3 initState).1 = false ∧
     getLastError (installFirmware envNotFinished [1, 2, 3] 3 initState).2 =
       OTA_ERROR_INSTALLATION ∧
     getLastErrorMessage (installFirmware envNotFinished [1, 2, 3] 3
       initState).2 = "Update not finished" ∧
     (installFirmware envNotFinished [1, 2, 3] 3
       initState).2.installerSteps =
       initState.installerSteps ++ ["begin", "write", "end", "isFinished"]) :=
  ⟨(C6_installer_step_failures envBeginFail [1, 2, 3] 3 initState).1
      (by decide),
   (C6_installer_step_failures envNotFinished [1, 2, 3] 3 initState).2.2.2
      (by decide) (by decide) (by decide) (by decide)⟩

/-- C7: the outcome of `performUpdate` and of `checkAndUpdate` — the returned
boolean and the entire resulting client state, last error included — is
independent of whether the control plane acknowledged any of the status
reports: two runs identical except for the acknowledgment results coincide
exactly. -/
theorem C7_outcome_independent_of_report_acks (env : Env)
    (a b : Nat → Bool) (u : FirmwareUpdate) (s : ClientState) :
    performUpdate { env with reportAck := a } u s =
      performUpdate { env with reportAck := b } u s ∧
    checkAndUpdate { env with reportAck := a } s =
      checkAndUpdate { env with reportAck := b } s :=
  ⟨rfl, rfl⟩

/-- C9: `checkForUpdate` with a null descriptor pointer returns false at
once — the last error becomes `OTA_ERROR_INVALID_RESPONSE` with message
"Invalid update pointer" and no HTTP request of any kind is issued. -/
theorem C9_null_pointer_no_request (env : Env) (s : ClientState) :
    (checkForUpdate env false s).1.1 = false ∧
    getLastError (checkForUpdate env false s).2 =
      OTA_ERROR_INVALID_RESPONSE ∧
    getLastErrorMessage (checkForUpdate env false s).2 =
      "Invalid update pointer" ∧
    (checkForUpdate env false s).2.checkRequests = s.checkRequests ∧
    (checkForUpdate env false s).2.fwRequests = s.fwRequests ∧
    (checkForUpdate env false s).2.postCount = s.postCount := by
  simp [checkForUpdate, setError, getLastError, getLastErrorMessage]

/-- A successful `checkForUpdate` through a valid pointer forces a 200
response, a parsed descriptor with the three required fields non-empty, and a
final state that only counts the request and clears the error code. -/
theorem checkForUpdate_true_elim (env : Env) (s : ClientState)
    (h : (checkForUpdate env true s).1.1 = true) :
    env.checkHttpCode = HTTP_CODE_OK ∧
    env.checkParse = some (checkForUpdate env true s).1.2 ∧
    (checkForUpdate env true s).1.2.releaseID.length ≠ 0 ∧
    (checkForUpdate env true s).1.2.binaryURL.length ≠ 0 ∧
    (checkForUpdate env true s).1.2.binaryHash.length ≠ 0 ∧
    (checkForUpdate env true s).2 =
      { s with checkRequests := s.checkRequests + 1,
               lastError := OTA_ERROR_NONE } := by
  simp only [checkForUpdate] at h ⊢
  split at h
  · simp at h
  · split at h
    · split at h
      · simp at h
      · simp at h
    · rename_i hok
      split at h
      · simp at h
      · rename_i u hparse
        split at h
        · simp at h
        · rename_i hmiss
          simp only [ne_eq, not_not] at hok
          push_neg at hmiss
          simp [hok, hparse, hmiss.1, hmiss.2.1, hmiss.2.2]

/-- A successful install phase forces every installer step to succeed and
ends with `OTA_ERROR_NONE` after reporting INSTALLING at 50 and COMPLETED at
100. -/
theorem performInstallPhase_true_elim (env : Env) (u : FirmwareUpdate)
    (data : List Nat) (s : ClientState)
    (h : (performInstallPhase env u data s).1 = true) :
    env.updateBeginOk data.length = true ∧
    env.updateWritten data.length = data.length ∧
    env.updateEndOk = true ∧ env.updateIsFinished = true ∧
    (performInstallPhase env u data s).2.lastError = OTA_ERROR_NONE ∧
    (performInstallPhase env u data s).2.reports =
      s.reports ++ [(OTA_STATUS_INSTALLING, 50, none),
        (OTA_STATUS_COMPLETED, 100, none)] := by
  by_cases hbeg : env.updateBeginOk data.length = true
  case neg =>
    exfalso
    simp [performInstallPhase, installFirmware, reportStatus, setError,
      hbeg] at h
  by_cases hwr : env.updateWritten data.length = data.length
  case neg =>
    exfalso
    simp [performInstallPhase, installFirmware, reportStatus, setError,
      hbeg, hwr] at h
  by_cases hend : env.updateEndOk = true
  case neg =>
    exfalso
    simp [performInstallPhase, installFirmware, reportStatus, setError,
      hbeg, hwr, hend] at h
  by_cases hfin : env.updateIsFinished = true
  case neg =>
    exfalso
    simp [performInstallPhase, installFirmware, reportStatus, setError,
      hbeg, hwr, hend, hfin] at h
  refine ⟨hbeg, hwr, hend, hfin, ?_, ?_⟩ <;>
    simp [performInstallPhase, installFirmware, reportStatus, hbeg, hwr,
      hend, hfin]

/-- A successful `performUpdate` forces every pipeline stage to succeed: the
download delivered exactly the expected (non-zero) number of bytes, the hash
matched, a signature check that was reached passed, every installer step
succeeded, the error code ends cleared, and the report trace is DOWNLOADING
at 0, INSTALLING at 50, COMPLETED at 100. -/
theorem performUpdate_true_elim (env : Env) (u : FirmwareUpdate)
    (s : ClientState) (h : (performUpdate env u s).1 = true) :
    env.fwHttpCode = HTTP_CODE_OK ∧ 0 < env.fwContentLength ∧
    env.mallocOk = true ∧ env.fwStream.length = toSizeT u.binarySize ∧
    0 < env.fwStream.length ∧
    verifyHash env env.fwStream u.binaryHash = true ∧
    (s.verifySignatureEnabled = true → 0 < u.signature.length →
      verifySignature env env.fwStream u.signature = true) ∧
    env.updateBeginOk env.fwStream.length = true ∧
    env.updateWritten env.fwStream.length = env.fwStream.length ∧
    env.updateEndOk = true ∧ env.updateIsFinished = true ∧
    (performUpdate env u s).2.lastError = OTA_ERROR_NONE ∧
    (performUpdate env u s).2.reports =
      s.reports ++ [(OTA_STATUS_DOWNLOADING, 0, none),
        (OTA_STATUS_INSTALLING, 50, none),
        (OTA_STATUS_COMPLETED, 100, none)] := by
  by_cases hcode : env.fwHttpCode = HTTP_CODE_OK
  case neg =>
    exfalso
    simp [performUpdate, downloadFirmware, reportStatus, setError, hcode]
      at h
  by_cases hlen : env.fwContentLength ≤ 0
  case pos =>
    exfalso
    simp [performUpdate, downloadFirmware, reportStatus, setError, hcode,
      hlen] at h
  by_cases hmal : env.mallocOk = true
  case neg =>
    exfalso
    simp [performUpdate, downloadFirmware, reportStatus, setError, hcode,
      hlen, hmal] at h
  by_cases hsz : env.fwStream.length = toSizeT u.binarySize
  case neg =>
    exfalso
    simp [performUpdate, downloadFirmware, reportStatus, setError, hcode,
      hlen, hmal, hsz] at h
  by_cases h0 : env.fwStream.length = 0
  case pos =>
    exfalso
    rw [hsz] at h0
    simp [performUpdate, downloadFirmware, reportStatus, setError, hcode,
      hlen, hmal, hsz, h0] at h
  by_cases hhash : verifyHash env env.fwStream u.binaryHash = true
  case neg =>
    exfalso
    simp [performUpdate, downloadFirmware, reportStatus, runVerifyHash,
      setError, hcode, hlen, hmal, ← hsz, h0, hhash] at h
  by_cases hsig : s.verifySignatureEnabled = true ∧ 0 < u.signature.length
  case pos =>
    by_cases hsv : verifySignature env env.fwStream u.signature = true
    case neg =>
      exfalso
      simp [performUpdate, downloadFirmware, reportStatus, runVerifyHash,
        runVerifySignature, setError, hcode, hlen, hmal, ← hsz, h0, hhash,
        hsig.1, hsig.2, hsv] at h
    simp only [performUpdate, downloadFirmware, reportStatus, runVerifyHash,
      runVerifySignature] at h
    simp [hcode, hlen, hmal, ← hsz, h0, hhash, hsig.1, hsig.2, hsv] at h
    obtain ⟨hbeg, hwr, hend, hfin, herr, hrep⟩ :=
      performInstallPhase_true_elim _ _ _ _ h
    refine ⟨hcode, by omega, hmal, hsz, by omega, hhash,
      fun _ _ => hsv, hbeg, hwr, hend, hfin, ?_, ?_⟩
    · simp only [performUpdate, downloadFirmware, reportStatus,
        runVerifyHash, runVerifySignature]
      simp [hcode, hlen, hmal, ← hsz, h0, hhash, hsig.1, hsig.2, hsv, herr]
    · simp only [performUpdate, downloadFirmware, reportStatus,
        runVerifyHash, runVerifySignature]
      simp [hcode, hlen, hmal, ← hsz, h0, hhash, hsig.1, hsig.2, hsv, hrep]
  case neg =>
    simp only [performUpdate, downloadFirmware, reportStatus, runVerifyHash,
      runVerifySignature] at h
    simp [hcode, hlen, hmal, ← hsz, h0, hhash, hsig] at h
    obtain ⟨hbeg, hwr, hend, hfin, herr, hrep⟩ :=
      performInstallPhase_true_elim _ _ _ _ h
    refine ⟨hcode, by omega, hmal, hsz, by omega, hhash,
      fun ha hb => absurd ⟨ha, hb⟩ hsig, hbeg, hwr, hend, hfin, ?_, ?_⟩
    · simp only [performUpdate, downloadFirmware, reportStatus,
        runVerifyHash, runVerifySignature]
      simp [hcode, hlen, hmal, ← hsz, h0, hhash, hsig, herr]
    · simp only [performUpdate, downloadFirmware, reportStatus,
        runVerifyHash, runVerifySignature]
      simp [hcode, hlen, hmal, ← hsz, h0, hhash, hsig, hrep]

/-- C8: `checkAndUpdate` returns true only when every stage succeeded — the
checker answered 200 with a descriptor whose required fields are non-empty,
the download delivered exactly the expected bytes, the hash matched, any
signature check that was reached passed, and every installer step
succeeded — and on that path the error code ends cleared and the final
status report is COMPLETED at progress 100. -/
theorem C8_success_only_via_completed (env : Env) (s : ClientState)
    (h : (checkAndUpdate env s).1 = true) :
    env.checkHttpCode = HTTP_CODE_OK ∧
    (∃ u, env.checkParse = some u ∧
      u.releaseID.length ≠ 0 ∧ u.binaryURL.length ≠ 0 ∧
      u.binaryHash.length ≠ 0 ∧
      env.fwHttpCode = HTTP_CODE_OK ∧ 0 < env.fwContentLength ∧
      env.mallocOk = true ∧ env.fwStream.length = toSizeT u.binarySize ∧
      0 < env.fwStream.length ∧
      verifyHash env env.fwStream u.binaryHash = true ∧
      (s.verifySignatureEnabled = true → 0 < u.signature.length →
        verifySignature env env.fwStream u.signature = true) ∧
      env.updateBeginOk env.fwStream.length = true ∧
      env.updateWritten env.fwStream.length = env.fwStream.length ∧
      env.updateEndOk = true ∧ env.updateIsFinished = true) ∧
    getLastError (checkAndUpdate env s).2 = OTA_ERROR_NONE ∧
    (checkAndUpdate env s).2.reports.getLast? =
      some (OTA_STATUS_COMPLETED, 100, none) := by
  by_cases hc : (checkForUpdate env true s).1.1 = true
  case neg =>
    exfalso
    simp [checkAndUpdate, hc] at h
  obtain ⟨h200, hparse, hrid, hurl, hbh, hstate⟩ :=
    checkForUpdate_true_elim env s hc
  have hp : (performUpdate env (checkForUpdate env true s).1.2
      (checkForUpdate env true s).2).1 = true := by
    simpa [checkAndUpdate, hc] using h
  obtain ⟨hfw, hcl, hmal, hsz, hpos, hhash, hsigok, hbeg, hwr, hend, hfin,
    herr, hrep⟩ := performUpdate_true_elim env _ _ hp
  have hca : (checkAndUpdate env s).2 =
      (performUpdate env (checkForUpdate env true s).1.2
        (checkForUpdate env true s).2).2 := by
    simp [checkAndUpdate, hc]
  refine ⟨h200, ⟨(checkForUpdate env true s).1.2, hparse, hrid, hurl, hbh,
    hfw, hcl, hmal, hsz, hpos, hhash, ?_, hbeg, hwr, hend, hfin⟩, ?_, ?_⟩
  · intro ha hb
    refine hsigok ?_ hb
    rw [hstate]
    exact ha
  · rw [hca]
    exact herr
  · rw [hca, hrep, List.getLast?_append_cons]
    rfl

/-- C8 witness: the end-to-end success run — valid descriptor, exact 3-byte
download, matching hash, installer success. -/
theorem C8_success_only_via_completed_witness :
    envGood.checkHttpCode = HTTP_CODE_OK ∧
    (∃ u, envGood.checkParse = some u ∧
      u.releaseID.length ≠ 0 ∧ u.binaryURL.length ≠ 0 ∧
      u.binaryHash.length ≠ 0 ∧
      envGood.fwHttpCode = HTTP_CODE_OK ∧ 0 < envGood.fwContentLength ∧
      envGood.mallocOk = true ∧
      envGood.fwStream.length = toSizeT u.binarySize ∧
      0 < envGood.fwStream.length ∧
      verifyHash envGood envGood.fwStream u.binaryHash = true ∧
      (initState.verifySignatureEnabled = true → 0 < u.signature.length →
        verifySignature envGood envGood.fwStream u.signature = true) ∧
      envGood.updateBeginOk envGood.fwStream.length = true ∧
      envGood.updateWritten envGood.fwStream.length =
        envGood.fwStream.length ∧
      envGood.updateEndOk = true ∧ envGood.updateIsFinished = true) ∧
    getLastError (checkAndUpdate envGood initState).2 = OTA_ERROR_NONE ∧
    (checkAndUpdate envGood initState).2.reports.getLast? =
      some (OTA_STATUS_COMPLETED, 100, none) :=
  C8_success_only_via_completed envGood initState (by decide)

/-- C10: a successful `checkForUpdate` and a successful `performUpdate` both
leave `getLastError` at `OTA_ERROR_NONE`, whatever failure code an earlier
operation had recorded in the starting state. -/
theorem C10_success_resets_last_error (env : Env) (u : FirmwareUpdate)
    (s : ClientState) :
    ((checkForUpdate env true s).1.1 = true →
      getLastError (checkForUpdate env true s).2 = OTA_ERROR_NONE) ∧
    ((performUpdate env u s).1 = true →
      getLastError (performUpdate env u s).2 = OTA_ERROR_NONE) := by
  constructor
  · intro h
    obtain ⟨-, -, -, -, -, hstate⟩ := checkForUpdate_true_elim env s h
    rw [getLastError, hstate]
  · intro h
    obtain ⟨-, -, -, -, -, -, -, -, -, -, -, herr, -⟩ :=
      performUpdate_true_elim env u s h
    exact herr

/-- C10 witness: both operations succeed from a state still carrying a stale
`OTA_ERROR_DOWNLOAD`, and both leave the error code cleared. -/
theorem C10_success_resets_last_error_witness :
    getLastError (checkForUpdate envGood true staleErrorState).2 =
      OTA_ERROR_NONE ∧
    getLastError (performUpdate envGood goodUpdate staleErrorState).2 =
      OTA_ERROR_NONE :=
  ⟨(C10_success_resets_last_error envGood goodUpdate staleErrorState).1
      (by decide),
   (C10_success_resets_last_error envGood goodUpdate staleErrorState).2
      (by decide)⟩

end OTA
